import Mathlib

/-
Verification of the nose doctest plugin (nose/plugins/doctests.py):
a shallow embedding of the discovery and addressing engine, with theorems
about the eligibility matcher, the extraction engine, the fixture resolver
and the address resolver.

Python truthiness is modelled explicitly: a list is truthy iff nonempty,
a string iff nonempty, `None` is falsy; `filter(None, xs)` is truthy iff
some element of `xs` is truthy.  Regex pattern objects are modelled as
predicates `String → Bool` (the truthiness of `pat.search(name)`).
Python `None` return values and raised exceptions that propagate are both
modelled with `Option` as noted at each definition.
-/

namespace NoseDoctests

/-- One doctest example: an (input text, expected output text) pair. -/
abbrev Example := String × String

/-- A parsed doctest block (`doctest.DocTest`): logical name, source
filename (possibly absent), starting line, and examples. -/
structure DocTest where
  name : String
  filename : Option String
  lineno : Nat
  examples : List Example
  deriving DecidableEq, Repr

/-- A Python module as seen by the loader: its `__name__`, its `__file__`,
and the outcome of `doctest.DocTestFinder().find(module)` — `none` models
the `AttributeError` raised when the module sets `__test__ = False`. -/
structure Module where
  name : String
  file : String
  findResult : Option (List DocTest)
  deriving DecidableEq, Repr

/-- The plugin configuration surface: `doctest_tests`
(--doctest-tests), `testMatch` (truthiness of `conf.testMatch.search`),
`includePatterns` / `excludePatterns` (`conf.include` / `conf.exclude`,
each pattern as the truthiness of `.search`), `extension`
(--doctest-extension list) and `fixtures` (--doctest-fixtures suffix). -/
structure Config where
  doctest_tests : Bool
  testMatch : String → Bool
  includePatterns : List (String → Bool)
  excludePatterns : List (String → Bool)
  extension : List String
  fixtures : Option String

/-- Python `str.endswith`: suffix test on the character list. -/
def endswith (s suf : String) : Bool :=
  List.isSuffixOf suf.data s.data

/-- The source method `Doctest.matches(self, name)` (Lean reserves the
name `matches`): the module-name eligibility check,
translated clause by clause from the source (with Python truthiness:
`conf.include and filter(None, ...)` is nonemptiness plus an existing
match, `not conf.exclude or not filter(None, ...)` is emptiness or the
absence of a match). -/
def matchesName (c : Config) (name : String) : Bool :=
  if name == "__init__.py" then
    false
  else
    (c.doctest_tests || !(c.testMatch name)
      || (!c.includePatterns.isEmpty
          && c.includePatterns.any (fun inc => inc name)))
    && (c.excludePatterns.isEmpty
        || !(c.excludePatterns.any (fun exc => exc name)))

/-- The source method `Doctest.wantFile(self, file)`: returns `some true`
for Python `True`,
`none` for Python `None` (the function never returns `False`). -/
def wantFile (c : Config) (file : String) : Option Bool :=
  if endswith file ".py" then
    some true
  else if !c.extension.isEmpty
          && c.extension.any (fun ext => endswith file ext)
          && (c.excludePatterns.isEmpty
              || !(c.excludePatterns.any (fun exc => exc file))) then
    some true
  else
    none

/-- Claim C2: for a module name other than the literal `__init__.py`, the
eligibility check accepts iff (the also-scan flag is set, or the name does
not match the test-module pattern, or some include pattern matches the
name) and no exclude pattern matches the name. -/
theorem C2_matches_iff (c : Config) (name : String)
    (h : name ≠ "__init__.py") :
    matchesName c name = true ↔
      ((c.doctest_tests = true ∨ c.testMatch name = false
          ∨ ∃ inc ∈ c.includePatterns, inc name = true)
        ∧ ∀ exc ∈ c.excludePatterns, exc name = false) := by
  have hbeq : ¬((name == "__init__.py") = true) := by simpa using h
  simp only [matchesName, if_neg hbeq, Bool.and_eq_true, Bool.or_eq_true,
    Bool.not_eq_true', List.any_eq_true, List.any_eq_false,
    List.isEmpty_eq_true, List.isEmpty_eq_false]
  constructor
  · rintro ⟨h1, h2⟩
    refine ⟨?_, ?_⟩
    · rcases h1 with (hd | htm) | ⟨hne, inc, hinc, hv⟩
      · exact Or.inl hd
      · exact Or.inr (Or.inl htm)
      · exact Or.inr (Or.inr ⟨inc, hinc, hv⟩)
    · intro exc hexc
      rcases h2 with hemp | hnone
      · rw [hemp] at hexc; cases hexc
      · cases hvv : exc name
        · rfl
        · exact absurd hvv (hnone exc hexc)
  · rintro ⟨h1, h2⟩
    refine ⟨?_, ?_⟩
    · rcases h1 with hd | htm | ⟨inc, hinc, hv⟩
      · exact Or.inl (Or.inl hd)
      · exact Or.inl (Or.inr htm)
      · exact Or.inr ⟨List.ne_nil_of_mem hinc, inc, hinc, hv⟩
    · refine Or.inr ?_
      intro x hx
      simp [h2 x hx]

/-- Concrete configuration witnessing the eligibility check: no include
or exclude patterns, also-scan flag off, test-module pattern matching
only `test_mod`. -/
def confC2 : Config :=
  { doctest_tests := false, testMatch := fun s => s == "test_mod",
    includePatterns := [], excludePatterns := [],
    extension := [], fixtures := none }

theorem C2_witness : matchesName confC2 "mymodule" = true :=
  (C2_matches_iff confC2 "mymodule" (by decide)).mpr
    ⟨Or.inr (Or.inl (by decide)), by simp [confC2]⟩

/-- Claim C8: the literal module-name input `__init__.py` is rejected by
the eligibility check under every configuration. -/
theorem C8_init_always_rejected (c : Config) :
    matchesName c "__init__.py" = false :=
  rfl

/-- The acceptance condition of `wantFile`, stated separately from the
control flow: the primary `.py` extension is wanted unconditionally, and
an auxiliary extension is wanted when no exclude pattern matches. -/
def wantFileAccepts (c : Config) (file : String) : Bool :=
  endswith file ".py"
  || (!c.extension.isEmpty
      && c.extension.any (fun ext => endswith file ext)
      && (c.excludePatterns.isEmpty
          || !(c.excludePatterns.any (fun exc => exc file))))

/-- Claim C10: `wantFile` returns Python `True` exactly on acceptance and
the null value `None` otherwise; it never returns the boolean `False`. -/
theorem C10_wantFile_true_or_none (c : Config) (file : String) :
    wantFile c file = (if wantFileAccepts c file then some true else none)
    ∧ wantFile c file ≠ some false := by
  unfold wantFile wantFileAccepts
  cases hpy : endswith file ".py" <;>
    cases haux : !c.extension.isEmpty
        && c.extension.any (fun ext => endswith file ext)
        && (c.excludePatterns.isEmpty
            || !(c.excludePatterns.any (fun exc => exc file))) <;>
      simp [hpy, haux]

/-- Concrete configuration for the exclude-pattern veto analysis: one
exclude pattern matching exactly the name `foo.py`, auxiliary extension
`.txt`. -/
def confC9 : Config :=
  { doctest_tests := false, testMatch := fun _ => false,
    includePatterns := [], excludePatterns := [fun s => s == "foo.py"],
    extension := [".txt"], fixtures := none }

/-- Claim C9 counterexample: `foo.py` matches the configured exclude
pattern, yet `wantFile` accepts it — the `.py` branch returns `True`
before exclude patterns are ever consulted, so an exclude match does not
veto acceptance regardless of extension. -/
theorem C9_counterexample :
    (confC9.excludePatterns.any fun exc => exc "foo.py") = true
    ∧ wantFile confC9 "foo.py" = some true :=
  ⟨rfl, rfl⟩

/-- Claim C9 amended: for filenames that do not end in the primary `.py`
extension, a matching exclude pattern does veto acceptance (`wantFile`
returns the null value). -/
theorem C9_exclude_vetoes_non_py (c : Config) (file : String)
    (hpy : endswith file ".py" = false)
    (hexc : (c.excludePatterns.any fun exc => exc file) = true) :
    wantFile c file = none := by
  have hne : c.excludePatterns.isEmpty = false := by
    rcases List.any_eq_true.mp hexc with ⟨x, hx, _⟩
    exact List.isEmpty_eq_false.mpr (List.ne_nil_of_mem hx)
  simp [wantFile, hpy, hexc, hne]

/-- Concrete configuration for the amended exclude veto: exclude pattern
matching exactly `bar.txt`. -/
def confC9w : Config :=
  { doctest_tests := false, testMatch := fun _ => false,
    includePatterns := [], excludePatterns := [fun s => s == "bar.txt"],
    extension := [".txt"], fixtures := none }

theorem C9_witness : wantFile confC9w "bar.txt" = none :=
  C9_exclude_vetoes_non_py confC9w "bar.txt" (by decide) (by decide)

/-- Python 2 comparison of optional strings, `None` sorting before any
string. -/
def optStrLt (a b : Option String) : Bool :=
  match a, b with
  | none, none => false
  | none, some _ => true
  | some _, none => false
  | some x, some y => decide (x < y)

/-- The Python 2 ordering on `doctest.DocTest` objects used by
`tests.sort()`: lexicographic on (name, filename, lineno). -/
def DocTest.le (a b : DocTest) : Bool :=
  if a.name == b.name then
    if a.filename == b.filename then a.lineno ≤ b.lineno
    else optStrLt a.filename b.filename
  else decide (a.name < b.name)

/-- Insertion of one element into a sorted list (stable insertion sort,
modelling Python `list.sort`). -/
def insertLe {β : Type} (le : β → β → Bool) (x : β) : List β → List β
  | [] => [x]
  | y :: ys => if le x y then x :: y :: ys else y :: insertLe le x ys

/-- Stable insertion sort modelling Python `list.sort`. -/
def sortLe {β : Type} (le : β → β → Bool) : List β → List β
  | [] => []
  | x :: xs => insertLe le x (sortLe le xs)

/-- The class `DocTestCase`: wraps one DocTest plus the optional
originating object
(`_nose_obj`), the hint consulted first by `address()`.  Host-language
objects are an abstract type `α`. -/
structure DocTestCase (α : Type) where
  test : DocTest
  nose_obj : Option α
  deriving DecidableEq, Repr

/-- The class `DoctestSuite`: the Group produced for one module — its
cases, its
context and its `can_split` flag. -/
structure DoctestSuite (α : Type) where
  tests : List (DocTestCase α)
  context : Option Module
  can_split : Bool
  deriving DecidableEq, Repr

/-- Python truthiness of an optional string: `None` and the empty string
are falsy. -/
def strTruthy : Option String → Bool
  | none => false
  | some s => !s.isEmpty

/-- The filename backfill in `loadTestsFromModule`:
`if not test.filename: test.filename = module_file`. -/
def backfillFilename (module_file : String) (t : DocTest) : DocTest :=
  if strTruthy t.filename then t else { t with filename := some module_file }

/-- The source method `Doctest.loadTestsFromModule(self, module)`,
translated line by line.
`srcf` models the external helper `nose.util.src` (mapping a compiled
source path back to the `.py` path).  The generator's yields are the
returned list. -/
def loadTestsFromModule (α : Type) (srcf : String → String) (c : Config)
    (m : Module) : List (DoctestSuite α) :=
  if !(matchesName c m.name) then []
  else
    match m.findResult with
    | none => []
    | some tests =>
      if tests.isEmpty then []
      else
        let module_file := srcf m.file
        let cases :=
          (sortLe DocTest.le tests).filterMap fun t =>
            if t.examples.isEmpty then none
            else some (DocTestCase.mk (backfillFilename module_file t)
                        (none : Option α))
        if !cases.isEmpty then [DoctestSuite.mk cases (some m) false] else []

/-- The surviving cases of a module scan: the sorted doctest blocks with a
nonzero number of examples, each wrapped with the filename backfill and no
originating object. -/
def survivingCases (α : Type) (srcf : String → String) (c : Config)
    (m : Module) : List (DocTestCase α) :=
  if matchesName c m.name then
    match m.findResult with
    | none => []
    | some tests =>
      (sortLe DocTest.le tests).filterMap fun t =>
        if t.examples.isEmpty then none
        else some (DocTestCase.mk (backfillFilename (srcf m.file) t)
                    (none : Option α))
  else []

theorem if_not_bool {γ : Type} (b : Bool) (x y : γ) :
    (if !b then x else y) = (if b then y else x) := by
  cases b <;> rfl

/-- The module loader yields the empty result or exactly one suite built
from the surviving cases. -/
theorem loadTestsFromModule_eq (α : Type) (srcf : String → String)
    (c : Config) (m : Module) :
    loadTestsFromModule α srcf c m
      = if (survivingCases α srcf c m).isEmpty then []
        else [DoctestSuite.mk (survivingCases α srcf c m) (some m) false] := by
  unfold loadTestsFromModule survivingCases
  by_cases hm : matchesName c m.name = true
  · rw [if_neg (by simp [hm]), if_pos hm]
    cases hf : m.findResult with
    | none => rfl
    | some tests =>
      cases tests with
      | nil => rfl
      | cons a as =>
        simp only [List.isEmpty_cons, Bool.false_eq_true, if_false,
          if_not_bool]
  · rw [if_pos (by simp [hm]), if_neg hm]
    rfl

/-- Claim C3: whenever module extraction yields anything, it is exactly
one Group whose cases are the module's surviving cases, whose context is
the module and whose `can_split` flag is false; when no blocks survive it
yields nothing. -/
theorem C3_module_single_group (α : Type) (srcf : String → String)
    (c : Config) (m : Module) :
    (survivingCases α srcf c m = [] → loadTestsFromModule α srcf c m = [])
    ∧ (survivingCases α srcf c m ≠ [] →
        loadTestsFromModule α srcf c m
          = [DoctestSuite.mk (survivingCases α srcf c m) (some m) false]) := by
  rw [loadTestsFromModule_eq]
  constructor
  · intro hs
    rw [if_pos (by simp [hs])]
  · intro hs
    rw [if_neg (by simpa using hs)]

/-- A concrete doctest block with one example. -/
def tC3 : DocTest :=
  { name := "pkg.mod.f", filename := some "pkg/mod.py", lineno := 1,
    examples := [("1+1", "2")] }

/-- A concrete module whose finder result is the single block `tC3`. -/
def mC3 : Module :=
  { name := "pkg.mod", file := "pkg/mod.py", findResult := some [tC3] }

theorem C3_witness :
    loadTestsFromModule Nat id confC2 mC3
      = [DoctestSuite.mk (survivingCases Nat id confC2 mC3) (some mC3)
          false] :=
  (C3_module_single_group Nat id confC2 mC3).2 (by decide)

/-- The filename backfill never changes a block's examples. -/
theorem backfillFilename_examples (module_file : String) (t : DocTest) :
    (backfillFilename module_file t).examples = t.examples := by
  unfold backfillFilename
  split <;> rfl

/-- The cases surviving a module scan all have a nonzero number of
examples. -/
theorem survivingCases_examples_ne_nil (α : Type) (srcf : String → String)
    (c : Config) (m : Module) :
    ∀ tc ∈ survivingCases α srcf c m, tc.test.examples ≠ [] := by
  intro tc htc
  unfold survivingCases at htc
  by_cases hm : matchesName c m.name = true
  · rw [if_pos hm] at htc
    cases hf : m.findResult with
    | none => rw [hf] at htc; cases htc
    | some tests =>
      rw [hf] at htc
      rcases List.mem_filterMap.mp htc with ⟨t, ht, hft⟩
      by_cases he : t.examples.isEmpty = true
      · rw [if_pos he] at hft; cases hft
      · rw [if_neg he] at hft
        cases hft
        rw [backfillFilename_examples]
        simpa using he
  · rw [if_neg hm] at htc
    cases htc

/-- The source method `Doctest.makeTest(self, obj, parent)`: the
single-entity extraction
path.  The finder result on the object is passed in as `doctests`; each
block with a nonzero number of examples is wrapped with the entity as the
originating object. -/
def makeTest (α : Type) (doctests : List DocTest) (obj : α) :
    List (DocTestCase α) :=
  if doctests.isEmpty then []
  else
    doctests.filterMap fun t =>
      if t.examples.length == 0 then none
      else some (DocTestCase.mk t (some obj))

/-- Claim C4: a block with zero examples never produces a Case, on the
whole-module path and on the single-entity path alike. -/
theorem C4_empty_blocks_never_wrapped (α : Type) (srcf : String → String)
    (c : Config) (m : Module) (doctests : List DocTest) (obj : α) :
    (∀ s ∈ loadTestsFromModule α srcf c m, ∀ tc ∈ s.tests,
        tc.test.examples ≠ [])
    ∧ (∀ tc ∈ makeTest α doctests obj, tc.test.examples ≠ []) := by
  constructor
  · intro s hs tc htc
    rw [loadTestsFromModule_eq] at hs
    by_cases hsc : (survivingCases α srcf c m).isEmpty = true
    · rw [if_pos hsc] at hs; cases hs
    · rw [if_neg hsc] at hs
      rcases List.mem_singleton.mp hs with rfl
      exact survivingCases_examples_ne_nil α srcf c m tc htc
  · intro tc htc
    unfold makeTest at htc
    by_cases hd : doctests.isEmpty = true
    · rw [if_pos hd] at htc; cases htc
    · rw [if_neg hd] at htc
      rcases List.mem_filterMap.mp htc with ⟨t, ht, hft⟩
      by_cases he : (t.examples.length == 0) = true
      · rw [if_pos he] at hft; cases hft
      · rw [if_neg he] at hft
        cases hft
        intro hnil
        have hnil2 : t.examples = [] := hnil
        exact he (by simp [hnil2])

theorem C4_witness :
    (DocTestCase.mk tC3 (some 0) : DocTestCase Nat).test.examples ≠ [] :=
  (C4_empty_blocks_never_wrapped Nat id confC2 mC3 [tC3] 0).2
    (DocTestCase.mk tC3 (some 0)) (by decide)

/-- Splitting a character list at every occurrence of a separator
(Python `str.split` with a one-character separator). -/
def splitChar (sep : Char) : List Char → List (List Char)
  | [] => [[]]
  | c :: rest =>
    if c == sep then [] :: splitChar sep rest
    else
      match splitChar sep rest with
      | [] => [[c]]
      | h :: t => (c :: h) :: t

/-- Python `s.split(sep)` for a one-character separator. -/
def splitOnChar (sep : Char) (s : String) : List String :=
  (splitChar sep s.data).map String.mk

/-- Python `os.path.basename`, modelled for slash-separated paths. -/
def basename (p : String) : String :=
  (splitOnChar '/' p).getLastD ""

/-- The base of `os.path.splitext`: the name with its last dot-extension
removed (the name itself when it has no dot). -/
def splitextBase (s : String) : String :=
  let parts := splitOnChar '.' s
  if parts.length ≤ 1 then s
  else String.intercalate "." parts.dropLast

/-- The class `DocFileCase`: the Case wrapping a doc file's single
doctest block. -/
structure DocFileCase where
  test : DocTest
  deriving DecidableEq, Repr

/-- The class `nose.suite.ContextSuite` as used by `loadTestsFromFile`:
the Group
wrapping a file's case together with the fixture execution context. -/
structure ContextSuite where
  tests : List DocFileCase
  context : Option Module
  deriving DecidableEq, Repr

/-- One yield of `loadTestsFromFile`: a ContextSuite (`suite`), a bare
unwrapped case (`bare`), or the literal `False` the generator yields to
signal "matched but had no examples" (`noTests`). -/
inductive FileLoadResult where
  | suite (s : ContextSuite)
  | bare (c : DocFileCase)
  | noTests
  deriving DecidableEq, Repr

/-- The environment of one `loadTestsFromFile` call: the file content as
read, the extraction primitive `DocTestParser().get_doctest` projected to
the examples it finds in a document, and the outcome of `__import__` on a
module name (`none` models `ImportError`). -/
structure FileEnv where
  content : String
  parse : String → List Example
  importModule : String → Option Module

/-- The doctest parsed from a file: name = base filename, filename = the
full path, line 0, examples parsed from the content. -/
def fileTest (env : FileEnv) (filename : String) : DocTest :=
  { name := basename filename, filename := some filename, lineno := 0,
    examples := env.parse env.content }

/-- The fixture resolution inside `loadTestsFromFile`: when a (truthy)
fixture suffix is configured, import base-name-plus-suffix; an
`ImportError` is caught, logged and leaves the context at `None`. -/
def fixtureContext (c : Config) (env : FileEnv) (filename : String) :
    Option Module :=
  match c.fixtures with
  | none => none
  | some suf =>
    if suf.isEmpty then none
    else env.importModule (splitextBase (basename filename) ++ suf)

/-- The source method `Doctest.loadTestsFromFile(self, filename)`,
translated line by line;
the generator's yields are the returned list. -/
def loadTestsFromFile (c : Config) (env : FileEnv) (filename : String) :
    List FileLoadResult :=
  if !c.extension.isEmpty
      && c.extension.any (fun ext => endswith filename ext) then
    if !(fileTest env filename).examples.isEmpty then
      match fixtureContext c env filename with
      | some ctx =>
        [FileLoadResult.suite
          (ContextSuite.mk [DocFileCase.mk (fileTest env filename)]
            (some ctx))]
      | none => [FileLoadResult.bare (DocFileCase.mk (fileTest env filename))]
    else [FileLoadResult.noTests]
  else []

/-- Configuration with the auxiliary extension `.txt` enabled and no
fixture suffix. -/
def confC5 : Config :=
  { doctest_tests := false, testMatch := fun _ => false,
    includePatterns := [], excludePatterns := [],
    extension := [".txt"], fixtures := none }

/-- A file environment whose content parses to one example and where no
module is importable. -/
def envC5 : FileEnv :=
  { content := "x", parse := fun _ => [("1+1", "2")],
    importModule := fun _ => none }

/-- Whether any yield of a file load is a Group (a ContextSuite). -/
def containsGroup : List FileLoadResult → Bool
  | [] => false
  | FileLoadResult.suite _ :: _ => true
  | _ :: rest => containsGroup rest

/-- Claim C5 counterexample: `guide.txt` (auxiliary extension enabled, no
fixture configured, one example) makes `loadTestsFromFile` yield the bare
Case itself, not a Group with null context — no Group at all is yielded
on the no-fixture path. -/
theorem C5_counterexample :
    loadTestsFromFile confC5 envC5 "guide.txt"
      = [FileLoadResult.bare (DocFileCase.mk (fileTest envC5 "guide.txt"))]
    ∧ containsGroup (loadTestsFromFile confC5 envC5 "guide.txt") = false :=
  ⟨rfl, rfl⟩

/-- Claim C5 amended: when the filename matches a configured auxiliary
extension, a block with at least one example yields exactly one Group
with the fixture module as context when a fixture context resolves, and
the single Case bare (not wrapped in any Group) when no fixture context
resolves; a block with zero examples yields the sentinel `False`. -/
theorem C5_file_yields (c : Config) (env : FileEnv) (filename : String)
    (hext : (!c.extension.isEmpty
        && c.extension.any fun ext => endswith filename ext) = true) :
    (env.parse env.content = [] →
      loadTestsFromFile c env filename = [FileLoadResult.noTests])
    ∧ (env.parse env.content ≠ [] →
        (∀ ctx, fixtureContext c env filename = some ctx →
          loadTestsFromFile c env filename
            = [FileLoadResult.suite (ContextSuite.mk
                [DocFileCase.mk (fileTest env filename)] (some ctx))])
        ∧ (fixtureContext c env filename = none →
            loadTestsFromFile c env filename
              = [FileLoadResult.bare
                  (DocFileCase.mk (fileTest env filename))])) := by
  unfold loadTestsFromFile
  rw [if_pos hext]
  constructor
  · intro hp
    have he : (fileTest env filename).examples.isEmpty = true := by
      simp [fileTest, hp]
    rw [if_neg (by simp [he])]
  · intro hp
    have he : (fileTest env filename).examples.isEmpty = false :=
      List.isEmpty_eq_false.mpr hp
    rw [if_pos (by simp [he])]
    constructor
    · intro ctx hctx
      rw [hctx]
    · intro hctx
      rw [hctx]

/-- A fixture module importable as `guide_fixt`. -/
def mFixt : Module :=
  { name := "guide_fixt", file := "guide_fixt.py", findResult := some [] }

/-- A file environment where exactly `guide_fixt` is importable. -/
def envC5f : FileEnv :=
  { content := "x", parse := fun _ => [("1+1", "2")],
    importModule := fun n => if n == "guide_fixt" then some mFixt
      else none }

/-- Configuration with auxiliary extension `.txt` and fixture suffix
`_fixt`. -/
def confC5f : Config :=
  { doctest_tests := false, testMatch := fun _ => false,
    includePatterns := [], excludePatterns := [],
    extension := [".txt"], fixtures := some "_fixt" }

theorem C5_witness :
    loadTestsFromFile confC5f envC5f "guide.txt"
      = [FileLoadResult.suite (ContextSuite.mk
          [DocFileCase.mk (fileTest envC5f "guide.txt")] (some mFixt))] :=
  ((C5_file_yields confC5f envC5f "guide.txt" (by decide)).2
    (by decide)).1 mFixt (by decide)

/-- Claim C7: a configured fixture suffix whose derived module fails
to import is recovered locally — the context stays `None` and the file's
Case is still yielded (bare, with no added execution context); the import
failure never escapes `loadTestsFromFile`. -/
theorem C7_fixture_import_failure (c : Config) (env : FileEnv)
    (filename suf : String)
    (hext : (!c.extension.isEmpty
        && c.extension.any fun ext => endswith filename ext) = true)
    (hfix : c.fixtures = some suf)
    (hsuf : suf.isEmpty = false)
    (himp : env.importModule (splitextBase (basename filename) ++ suf)
        = none)
    (hp : env.parse env.content ≠ []) :
    loadTestsFromFile c env filename
      = [FileLoadResult.bare (DocFileCase.mk (fileTest env filename))] := by
  have hfc : fixtureContext c env filename = none := by
    unfold fixtureContext
    rw [hfix]
    simp [hsuf, himp]
  unfold loadTestsFromFile
  rw [if_pos hext,
    if_pos (by simp [List.isEmpty_eq_false.mpr hp, fileTest]), hfc]

/-- Configuration with auxiliary extension `.txt` and fixture suffix
`_fixt`, used with an environment where no import succeeds. -/
def confC7 : Config :=
  { doctest_tests := false, testMatch := fun _ => false,
    includePatterns := [], excludePatterns := [],
    extension := [".txt"], fixtures := some "_fixt" }

theorem C7_witness :
    loadTestsFromFile confC7 envC5 "guide.txt"
      = [FileLoadResult.bare (DocFileCase.mk (fileTest envC5 "guide.txt"))] :=
  C7_fixture_import_failure confC7 envC5 "guide.txt" "_fixt" (by decide)
    rfl (by decide) rfl (by decide)

/-- The (filename, moduleName, callPath) address triple. -/
abbrev Addr := Option String × Option String × Option String

/-- The source method `DocFileCase.address(self)`: always the stored test
filename with null
module name and call path. -/
def DocFileCase.address (c : DocFileCase) : Addr :=
  (c.test.filename, none, none)

/-- Claim C6: a file-based Case addresses as (the file's filename, none,
none): in general the address is the stored filename with null module and
call path, and every Case yielded by `loadTestsFromFile` for a path
addresses as (some path, none, none), whether yielded bare or inside a
fixture Group. -/
theorem C6_file_case_address (c : Config) (env : FileEnv)
    (filename : String) (fc : DocFileCase) :
    (DocFileCase.address fc = (fc.test.filename, none, none))
    ∧ (FileLoadResult.bare fc ∈ loadTestsFromFile c env filename →
        DocFileCase.address fc = (some filename, none, none))
    ∧ (∀ s, FileLoadResult.suite s ∈ loadTestsFromFile c env filename →
        fc ∈ s.tests →
        DocFileCase.address fc = (some filename, none, none)) := by
  have main : ∀ r ∈ loadTestsFromFile c env filename,
      (∀ fc2, r = FileLoadResult.bare fc2 →
        fc2 = DocFileCase.mk (fileTest env filename))
      ∧ (∀ s, r = FileLoadResult.suite s →
          s.tests = [DocFileCase.mk (fileTest env filename)]) := by
    intro r hr
    unfold loadTestsFromFile at hr
    by_cases hext : (!c.extension.isEmpty
        && c.extension.any fun ext => endswith filename ext) = true
    · rw [if_pos hext] at hr
      by_cases he : (!(fileTest env filename).examples.isEmpty) = true
      · rw [if_pos he] at hr
        cases hctx : fixtureContext c env filename with
        | some ctx =>
          rw [hctx] at hr
          have hrs : r = FileLoadResult.suite (ContextSuite.mk
              [DocFileCase.mk (fileTest env filename)] (some ctx)) := by
            simpa using hr
          subst hrs
          constructor
          · intro fc2 hco; cases hco
          · intro s hs
            cases hs
            rfl
        | none =>
          rw [hctx] at hr
          have hrs : r = FileLoadResult.bare
              (DocFileCase.mk (fileTest env filename)) := by
            simpa using hr
          subst hrs
          constructor
          · intro fc2 hco
            cases hco
            rfl
          · intro s hs; cases hs
      · rw [if_neg he] at hr
        have hrs : r = FileLoadResult.noTests := by simpa using hr
        subst hrs
        constructor
        · intro fc2 hco; cases hco
        · intro s hs; cases hs
    · rw [if_neg hext] at hr
      cases hr
  refine ⟨rfl, ?_, ?_⟩
  · intro hmem
    have h1 := (main _ hmem).1 fc rfl
    rw [h1]
    rfl
  · intro s hmem hfc
    have h2 := (main _ hmem).2 s rfl
    rw [h2] at hfc
    have h3 : fc = DocFileCase.mk (fileTest env filename) := by
      simpa using hfc
    rw [h3]
    rfl

theorem C6_witness :
    DocFileCase.address (DocFileCase.mk (fileTest envC5 "guide.txt"))
      = (some "guide.txt", none, none) :=
  (C6_file_case_address confC5 envC5 "guide.txt"
    (DocFileCase.mk (fileTest envC5 "guide.txt"))).2.1 (by decide)

/-- The addressing environment of `DocTestCase.address`: `resolve_name`,
`isproperty` and `test_address` from `nose.util`, over an abstract object
type `α`.  `resolve_name` yields `none` when the dotted-name lookup fails
(that error propagates to the caller). -/
structure Env (α : Type) where
  resolve_name : String → Option α
  isproperty : α → Bool
  test_address : α → Addr

/-- The source method `DocTestCase.address(self)`, translated line by
line.  The result is
`none` when an exception propagates: a failed name resolution, or the
property branch joining a null class call path. -/
def DocTestCase.address {α : Type} (env : Env α) (c : DocTestCase α) :
    Option Addr :=
  match c.nose_obj with
  | some o => some (env.test_address o)
  | none =>
    match env.resolve_name c.test.name with
    | none => none
    | some obj =>
      if env.isproperty obj then
        match env.resolve_name
            (String.intercalate "."
              (splitOnChar '.' c.test.name).dropLast) with
        | none => none
        | some cls =>
          match (env.test_address cls).2.2 with
          | none => none
          | some callp =>
            some ((env.test_address cls).1, (env.test_address cls).2.1,
              some (callp ++ "."
                ++ (splitOnChar '.' c.test.name).getLastD ""))
      else some (env.test_address obj)

/-- Claim C1: `address()` computes from the carried originating entity
whenever one is present, skipping re-resolution entirely; otherwise it
re-resolves the stored dotted name — a resolved property is addressed
through its owning class (the class's filename and module name, callPath
= class callPath joined with the property's leaf name), and any other
resolved object is addressed directly. -/
theorem C1_address_priority (α : Type) (env : Env α) (c : DocTestCase α) :
    (∀ o, c.nose_obj = some o →
      DocTestCase.address env c = some (env.test_address o))
    ∧ (c.nose_obj = none →
        ∀ obj, env.resolve_name c.test.name = some obj →
          (env.isproperty obj = false →
            DocTestCase.address env c = some (env.test_address obj))
          ∧ (env.isproperty obj = true →
              ∀ cls callp,
                env.resolve_name (String.intercalate "."
                    (splitOnChar '.' c.test.name).dropLast) = some cls →
                (env.test_address cls).2.2 = some callp →
                DocTestCase.address env c
                  = some ((env.test_address cls).1,
                      (env.test_address cls).2.1,
                      some (callp ++ "."
                        ++ (splitOnChar '.' c.test.name).getLastD "")))) := by
  constructor
  · intro o ho
    simp [DocTestCase.address, ho]
  · intro hno obj hobj
    constructor
    · intro hprop
      simp [DocTestCase.address, hno, hobj, hprop]
    · intro hprop cls callp hcls hcallp
      simp [DocTestCase.address, hno, hobj, hprop, hcls, hcallp]

/-- A concrete addressing environment over `Nat` objects: `1` is the
property `pkg.mod.C.p`, `2` is the class `pkg.mod.C`. -/
def envC1 : Env Nat :=
  { resolve_name := fun s =>
      if s == "pkg.mod.C.p" then some 1
      else if s == "pkg.mod.C" then some 2
      else none,
    isproperty := fun o => o == 1,
    test_address := fun o =>
      if o == 2 then (some "pkg/mod.py", some "pkg.mod", some "C")
      else (none, none, none) }

/-- The block of a Case re-resolved by name, whose stored dotted name
names a property. -/
def tC1 : DocTest :=
  { name := "pkg.mod.C.p", filename := some "pkg/mod.py", lineno := 3,
    examples := [("1+1", "2")] }

/-- A Case carrying no originating object, so that `address()` takes the
re-resolution path. -/
def caseC1 : DocTestCase Nat :=
  { test := tC1, nose_obj := none }

theorem C1_witness :
    DocTestCase.address envC1 caseC1
      = some (some "pkg/mod.py", some "pkg.mod", some "C.p") :=
  ((C1_address_priority Nat envC1 caseC1).2 rfl 1 (by decide)).2
    (by decide) 2 "C" (by decide) (by decide)

end NoseDoctests
